import Mathlib

/-
Verification development for the ESP32 smart roller blind firmware
(sketch `skech_smart_roller_blind.ino`, variant `sketch_sep7a.ino`, and
`config.h`).  The definitions below are a shallow embedding of the C++
source: globals become fields of an explicit state record, the IR decode
result becomes a small structure, the busy-wait pulse loops become
fuel-indexed recursive functions whose fuel abstracts the wall-clock
bound that the source imposes with `while (millis() - startTime < duration)`
condition, and the IR receiver is modelled as an environment function
giving the result of each `IrReceiver.decode()` poll.
-/

set_option maxRecDepth 4000

namespace RollerBlind

/-- Decoded IR data as read from `IrReceiver.decodedIRData` in the source:
source address, command code, and protocol id. -/
structure IRDecode where
  address : Nat
  command : Nat
  protocol : Nat
deriving DecidableEq, Repr

/-- Remote address accepted by the dispatcher (`config.h`, `IR_ADDRESS`). -/
def IR_ADDRESS : Nat := 0xBF00

/-- Command code of the up key (`config.h`). -/
def IR_KEY_UP : Nat := 0x1

/-- Command code of the down key (`config.h`). -/
def IR_KEY_DOWN : Nat := 0x9

/-- Command code of the left (nudge-up) key (`config.h`). -/
def IR_KEY_LEFT : Nat := 0x4

/-- Command code of the right (nudge-down) key (`config.h`). -/
def IR_KEY_RIGHT : Nat := 0x6

/-- Command code of the emergency-stop key (`config.h`). -/
def IR_KEY_SHUTDOWN : Nat := 0x5

/-- Command code of the calibration (set) key (`config.h`). -/
def IR_KEY_SET : Nat := 0xE

/-- Command code of the direction-toggle key (`config.h`). -/
def IR_KEY_DIRECTION : Nat := 0x1A

/-- Compile-time default travel duration in milliseconds (`config.h`,
`DEFAULT_CURTAIN_TIME`). -/
def DEFAULT_CURTAIN_TIME : Int := 5000

/-- Normal-mode debounce window in milliseconds (`IR_DEBOUNCE_TIME`). -/
def IR_DEBOUNCE_TIME : Nat := 200

/-- Calibration-mode debounce window in milliseconds
(`SET_MODE_DEBOUNCE_TIME` in `loop`). -/
def SET_MODE_DEBOUNCE_TIME : Nat := 1000

/-- `loadCurtainTime`: the value kept when the 4-byte EEPROM duration
field is read back.  The source checks `savedTime > 0 && savedTime < 60000`
and otherwise substitutes `DEFAULT_CURTAIN_TIME`.  The raw field is a C
`int`, so it is modelled as `Int`. -/
def loadCurtainTime (savedTime : Int) : Int :=
  if 0 < savedTime ∧ savedTime < 60000 then savedTime else DEFAULT_CURTAIN_TIME

/-- Validity test applied to a decode observed while a move is in flight
(`rotateForTime`, lines 282 and 210 of the main sketch): the code must be
the emergency-stop key and both address and protocol must be non-zero. -/
def isValidStop (d : IRDecode) : Bool :=
  d.command == IR_KEY_SHUTDOWN && d.address != 0 && d.protocol != 0

/-- Whether the decode returned by the environment at poll point `n` is a
valid emergency stop (a failed `IrReceiver.decode()` is `none`). -/
def pollStop (env : Nat → Option IRDecode) (n : Nat) : Bool :=
  match env n with
  | some d => isValidStop d
  | none => false

/-- Pulse loop of `rotateForTime` (main sketch, lines 258-290).  `fuel` is
the number of iterations still allowed by the while condition
`millis() - startTime < duration` (one pulse per iteration at constant
speed, so the wall-clock bound is a fixed iteration bound);
`stepCount` counts emitted pulses; `stopRequested` is the shared stop
flag read at the loop head.  Every 100 steps the loop polls the decoder
and breaks with `stopRequested = true` on a valid emergency stop. -/
def rotateLoop (env : Nat → Option IRDecode) :
    Nat → Nat → Bool → Nat × Bool
  | 0, stepCount, stopRequested => (stepCount, stopRequested)
  | fuel + 1, stepCount, stopRequested =>
    if stopRequested then (stepCount, stopRequested)
    else
      let stepCount := stepCount + 1
      if stepCount % 100 == 0 then
        match env stepCount with
        | some d =>
          if isValidStop d then (stepCount, true)
          else rotateLoop env fuel stepCount stopRequested
        | none => rotateLoop env fuel stepCount stopRequested
      else rotateLoop env fuel stepCount stopRequested

/-- Direction parameter computed by `rollUpCurtain` (main sketch, lines
466-471): `true` (clockwise) when `isNormalDirection` holds, else `false`. -/
def rollUpDirectionParam (isNormalDirection : Bool) : Bool :=
  if isNormalDirection then true else false

/-- Direction parameter computed by `layDownCurtain` (lines 502-507). -/
def layDownDirectionParam (isNormalDirection : Bool) : Bool :=
  if isNormalDirection then false else true

/-- `leftDirection` computed in the `IR_KEY_LEFT` case of
`handleIRCommand` (lines 374-383): `true` (clockwise) when
`isNormalDirection` holds, else `false`. -/
def leftNudgeDirection (isNormalDirection : Bool) : Bool :=
  if isNormalDirection then true else false

/-- `rightDirection` computed in the `IR_KEY_RIGHT` case of
`handleIRCommand` (lines 401-411). -/
def rightNudgeDirection (isNormalDirection : Bool) : Bool :=
  if isNormalDirection then false else true

/-- `setDirection` computed on calibration entry in `handleSetKey`
(lines 549-558). -/
def setModeDirection (isNormalDirection : Bool) : Bool :=
  if isNormalDirection then false else true

/-- Program state: the global variables of the main sketch together with
the two persisted EEPROM fields and the two motor control pins.
`enablePinHigh = true` means the A4988 driver is disabled (standby) and
`dirPinHigh = true` means the DIR pin selects clockwise rotation. -/
structure MachineState where
  curtainTime : Int
  isNormalDirection : Bool
  motorRunning : Bool
  stopRequested : Bool
  isFullyRolledUp : Bool
  isFullyRolledDown : Bool
  setMode : Bool
  timingInProgress : Bool
  timingStart : Nat
  shutdownCount : Nat
  lastShutdownTime : Nat
  lastIRCommand : Nat
  lastIRTime : Nat
  eepromTime : Int
  eepromDirection : Bool
  enablePinHigh : Bool
  dirPinHigh : Bool
deriving DecidableEq, Repr

/-- `rotateForTime(duration, clockwise)` as a state transformer: enables
the driver, sets DIR, runs the pulse loop with the current value of the
shared `stopRequested` flag, then disables the driver.  Returns the new
state and the number of steps executed.  `fuel` abstracts the iteration
bound imposed by `duration` and the fixed step rate. -/
def rotateForTime (s : MachineState) (clockwise : Bool)
    (env : Nat → Option IRDecode) (fuel : Nat) : MachineState × Nat :=
  let s1 := { s with enablePinHigh := false, dirPinHigh := clockwise }
  let r := rotateLoop env fuel 0 s1.stopRequested
  ({ s1 with stopRequested := r.2, enablePinHigh := true }, r.1)

/-- `rollUpCurtain` (lines 447-495): raises `motorRunning`, clears the
stop flag, rotates for the travel duration in the roll-up direction, then
on an uninterrupted run marks the blind fully rolled up. -/
def rollUpCurtain (s : MachineState) (env : Nat → Option IRDecode)
    (fuel : Nat) : MachineState × Nat :=
  let s1 := { s with motorRunning := true, stopRequested := false }
  let r := rotateForTime s1 (rollUpDirectionParam s1.isNormalDirection) env fuel
  let s2 := { r.1 with motorRunning := false }
  let s3 :=
    if s2.stopRequested = false then
      { s2 with isFullyRolledUp := true, isFullyRolledDown := false }
    else s2
  ({ s3 with stopRequested := false }, r.2)

/-- `layDownCurtain` (lines 498-527). -/
def layDownCurtain (s : MachineState) (env : Nat → Option IRDecode)
    (fuel : Nat) : MachineState × Nat :=
  let s1 := { s with motorRunning := true, stopRequested := false }
  let r := rotateForTime s1 (layDownDirectionParam s1.isNormalDirection) env fuel
  let s2 := { r.1 with motorRunning := false }
  let s3 :=
    if s2.stopRequested = false then
      { s2 with isFullyRolledDown := true, isFullyRolledUp := false }
    else s2
  ({ s3 with stopRequested := false }, r.2)

/-- `handleSetKey` (lines 531-595).  First press: enter set mode, record
the start time, enable the motor in the lay-down direction.  Second
press: compute the elapsed time, stop the motor, store the elapsed time
in memory and (unclamped) in EEPROM, mark the blind fully down, and leave
set mode. -/
def handleSetKey (s : MachineState) (now : Nat) : MachineState :=
  if s.setMode = false then
    { s with setMode := true, timingInProgress := true, timingStart := now,
             enablePinHigh := false,
             dirPinHigh := setModeDirection s.isNormalDirection,
             motorRunning := true }
  else
    let duration : Int := ((now - s.timingStart : Nat) : Int)
    { s with enablePinHigh := true, motorRunning := false,
             timingInProgress := false,
             curtainTime := duration, eepromTime := duration,
             isFullyRolledDown := true, isFullyRolledUp := false,
             setMode := false }

/-- `handleShutdownKey` (lines 598-631).  In set mode: abort calibration.
Otherwise maintain the repeat counter with a 2000 ms window; on the third
consecutive press clear the EEPROM duration (write 0) and restore the
default, else request a stop and disable the motor (`stopMotor`). -/
def handleShutdownKey (s : MachineState) (now : Nat) : MachineState :=
  if s.setMode then
    { s with enablePinHigh := true, setMode := false,
             timingInProgress := false, motorRunning := false }
  else
    let shutdownCount :=
      if now - s.lastShutdownTime < 2000 then s.shutdownCount + 1 else 1
    let s1 := { s with shutdownCount := shutdownCount, lastShutdownTime := now }
    if 3 ≤ shutdownCount then
      { s1 with eepromTime := 0, curtainTime := DEFAULT_CURTAIN_TIME,
                shutdownCount := 0 }
    else
      { s1 with stopRequested := true, enablePinHigh := true,
                motorRunning := false }

/-- `handleDirectionKey` (lines 676-698): toggles the orientation flag
and immediately persists it. -/
def handleDirectionKey (s : MachineState) : MachineState :=
  let newDirection := if s.isNormalDirection then false else true
  { s with isNormalDirection := newDirection, eepromDirection := newDirection }

/-- `handleIRCommand` (lines 330-435): dispatch on the command code.
Returns the new state and the number of motor steps executed while
handling the command.  `env` and `fuel` parameterise the pulse loop of
any timed move started by the command. -/
def handleIRCommand (s : MachineState) (command : Nat) (now : Nat)
    (env : Nat → Option IRDecode) (fuel : Nat) : MachineState × Nat :=
  if command = IR_KEY_UP then
    if s.isFullyRolledUp then (s, 0)
    else rollUpCurtain { s with isFullyRolledDown := false, isFullyRolledUp := false } env fuel
  else if command = IR_KEY_DOWN then
    if s.isFullyRolledDown then (s, 0)
    else layDownCurtain { s with isFullyRolledDown := false, isFullyRolledUp := false } env fuel
  else if command = IR_KEY_LEFT then
    let s1 := { s with isFullyRolledUp := false, isFullyRolledDown := false }
    rotateForTime s1 (leftNudgeDirection s1.isNormalDirection) env fuel
  else if command = IR_KEY_RIGHT then
    let s1 := { s with isFullyRolledUp := false, isFullyRolledDown := false }
    rotateForTime s1 (rightNudgeDirection s1.isNormalDirection) env fuel
  else if command = IR_KEY_SET then (handleSetKey s now, 0)
  else if command = IR_KEY_SHUTDOWN then (handleShutdownKey s now, 0)
  else if command = IR_KEY_DIRECTION then (handleDirectionKey s, 0)
  else (s, 0)

/-- Result of one pass through the decode-processing block of `loop`:
the new state, the number of motor steps executed, and whether the
command was accepted (dispatched to `handleIRCommand`). -/
structure LoopResult where
  state : MachineState
  steps : Nat
  accepted : Bool
deriving Repr

/-- Decode-processing block of `loop` (lines 101-168): the address gate,
the set-mode filter with its 1000 ms window, and the normal-mode
validity check, running-motor stop bypass, and 200 ms debounce window.
On acceptance the command is dispatched and `lastIRCommand` /
`lastIRTime` are updated. -/
def loopStep (s : MachineState) (d : IRDecode) (now : Nat)
    (env : Nat → Option IRDecode) (fuel : Nat) : LoopResult :=
  if d.address ≠ IR_ADDRESS then ⟨s, 0, false⟩
  else if s.setMode then
    if (d.command = IR_KEY_SET ∨ d.command = IR_KEY_SHUTDOWN) ∧
        d.command ≠ 0xFFFFFFFF ∧ d.address ≠ 0 ∧ d.protocol ≠ 0 then
      if d.command ≠ s.lastIRCommand ∨ now - s.lastIRTime > SET_MODE_DEBOUNCE_TIME then
        let r := handleIRCommand s d.command now env fuel
        ⟨{ r.1 with lastIRCommand := d.command, lastIRTime := now }, r.2, true⟩
      else ⟨s, 0, false⟩
    else ⟨s, 0, false⟩
  else
    if d.command ≠ 0xFFFFFFFF then
      if s.motorRunning ∧ d.command = IR_KEY_SHUTDOWN ∧ d.address ≠ 0 ∧ d.protocol ≠ 0 then
        let r := handleIRCommand s d.command now env fuel
        ⟨{ r.1 with lastIRCommand := d.command, lastIRTime := now }, r.2, true⟩
      else if d.command ≠ s.lastIRCommand ∨ now - s.lastIRTime > IR_DEBOUNCE_TIME then
        let r := handleIRCommand s d.command now env fuel
        ⟨{ r.1 with lastIRCommand := d.command, lastIRTime := now }, r.2, true⟩
      else ⟨s, 0, false⟩
    else ⟨s, 0, false⟩

/-- State established by `setup()` (lines 65-97): pins idle, flags
cleared, and the two persisted fields loaded (the duration through
`loadCurtainTime`, the direction byte accepted as is). -/
def initialState (eepromTime : Int) (eepromDirection : Bool) : MachineState :=
  { curtainTime := loadCurtainTime eepromTime
    isNormalDirection := eepromDirection
    motorRunning := false
    stopRequested := false
    isFullyRolledUp := false
    isFullyRolledDown := false
    setMode := false
    timingInProgress := false
    timingStart := 0
    shutdownCount := 0
    lastShutdownTime := 0
    lastIRCommand := 0
    lastIRTime := 0
    eepromTime := eepromTime
    eepromDirection := eepromDirection
    enablePinHigh := true
    dirPinHigh := false }

/-- One observed decode fed to the dispatcher, with the time of its
arrival and the pulse-loop environment of any move it starts. -/
structure LoopInput where
  d : IRDecode
  now : Nat
  env : Nat → Option IRDecode
  fuel : Nat

/-- Folding the decode-processing block over a list of observed decodes. -/
def runTrace (s : MachineState) (inputs : List LoopInput) : MachineState :=
  inputs.foldl (fun s i => (loopStep s i.d i.now i.env i.fuel).state) s

/-- One command delivered directly to `handleIRCommand` (used to trace
sequences of already-accepted commands). -/
structure MoveInput where
  command : Nat
  now : Nat
  env : Nat → Option IRDecode
  fuel : Nat

/-- Folding `handleIRCommand` over a command list, accumulating the total
number of motor steps executed. -/
def runMoves (s : MachineState) : List MoveInput → MachineState × Nat
  | [] => (s, 0)
  | i :: rest =>
    let r := handleIRCommand s i.command i.now i.env i.fuel
    let t := runMoves r.1 rest
    (t.1, r.2 + t.2)

end RollerBlind

namespace Sep7a

/-- Emergency-stop command code of the `sketch_sep7a` variant (line 50):
`0x0`, unlike the value `0x5` of the main sketch. -/
def IR_KEY_SHUTDOWN : Nat := 0x0

/-- Maximum cruise speed of `smoothRotate` in steps/second (line 626). -/
def maxSpeed : Nat := 400

/-- Minimum ramp speed of `smoothRotate` in steps/second (line 627). -/
def minSpeed : Nat := 100

/-- Validity test of a decode observed inside `smoothRotate` (line 658):
the stop code of this variant with non-zero address and protocol. -/
def isValidStop (d : RollerBlind.IRDecode) : Bool :=
  d.command == IR_KEY_SHUTDOWN && d.address != 0 && d.protocol != 0

/-- Whether the decode at poll point `n` is a valid stop for this variant. -/
def pollStop (env : Nat → Option RollerBlind.IRDecode) (n : Nat) : Bool :=
  match env n with
  | some d => isValidStop d
  | none => false

/-- Per-step speed of the trapezoidal profile (lines 626-643): with
`accelSteps = decelSteps = steps / 4`, ramp linearly for the first
`accelSteps` indices, mirror the ramp for the last `decelSteps`, and
cruise at `maxSpeed` in between. -/
def currentSpeed (steps i : Nat) : Nat :=
  let accelSteps := steps / 4
  let decelSteps := steps / 4
  if i < accelSteps then
    minSpeed + (maxSpeed - minSpeed) * i / accelSteps
  else if steps - decelSteps ≤ i then
    minSpeed + (maxSpeed - minSpeed) * (steps - i) / decelSteps
  else maxSpeed

/-- Per-step delay of the trapezoidal profile in microseconds (line 645):
`1000000 / currentSpeed`. -/
def stepDelay (steps i : Nat) : Nat := 1000000 / currentSpeed steps i

/-- Pulse loop of `smoothRotate` (lines 631-666): `i` is the loop index,
`fuel` bounds the remaining iterations (`smoothRotate` supplies `steps`).
The decoder is polled whenever `i % 100 == 0`; a valid stop breaks the
loop after the current pulse, so `i + 1` steps have then been executed. -/
def smoothLoop (env : Nat → Option RollerBlind.IRDecode) (steps : Nat) :
    Nat → Nat → Nat × Bool
  | 0, i => (i, false)
  | fuel + 1, i =>
    if i < steps then
      if i % 100 == 0 then
        match env i with
        | some d =>
          if isValidStop d then (i + 1, true)
          else smoothLoop env steps fuel (i + 1)
        | none => smoothLoop env steps fuel (i + 1)
      else smoothLoop env steps fuel (i + 1)
    else (i, false)

/-- `smoothRotate(steps, clockwise)` reduced to its pulse loop: returns
the number of steps executed and whether a valid stop broke the loop. -/
def smoothRotate (env : Nat → Option RollerBlind.IRDecode) (steps : Nat) :
    Nat × Bool :=
  smoothLoop env steps steps 0

end Sep7a

/-
Theorems.  Each claim of the specification is settled by exactly one
theorem below; helper lemmas are shared.
-/

open RollerBlind

/-- C1: evaluation of the direction resolution at the failing input.
Under Normal orientation (`isNormalDirection = true`) the full roll-up
(`rollUpCurtain`) passes `directionParam = true` (clockwise) and the
nudge-up handler (`IR_KEY_LEFT`) passes `leftDirection = true`
(clockwise) as well: the two commands drive the same physical sense,
and likewise under Reversed orientation (both counterclockwise).  This
contradicts the claim that nudge-up is the opposite sense of full
roll-up (Normal: roll-up CW, nudge-up CCW) — and it also contradicts
the comments the source itself places next to the assignment, which say the value
should be the counterclockwise one. -/
theorem c1_nudge_up_same_sense_as_roll_up :
    leftNudgeDirection true = rollUpDirectionParam true ∧
    rollUpDirectionParam true = true ∧
    leftNudgeDirection false = rollUpDirectionParam false ∧
    rollUpDirectionParam false = false := by
  decide

/-- C7 counterexample: the value 60000 lies in the valid range stated by the claim, namely
`(0, 60000]` (lower bound excluded, upper bound included), yet
`loadCurtainTime` replaces it by the compile-time default: the source
requires `savedTime < 60000` strictly, so the range is exclusive at both
ends. -/
theorem c7_counterexample_upper_bound_excluded :
    (0 : Int) < 60000 ∧ (60000 : Int) ≤ 60000 ∧
    loadCurtainTime 60000 = DEFAULT_CURTAIN_TIME ∧
    loadCurtainTime 60000 ≠ 60000 := by
  decide

/-- C7 (amended): `loadCurtainTime` returns the persisted value exactly
when it lies strictly between 0 and 60000 (both bounds excluded) and the
compile-time default 5000 otherwise; the clear action (third consecutive
stop press in `handleShutdownKey`) writes the sentinel 0, so a cleared
field always loads as the default. -/
theorem c7_load_range_and_clear_default :
    ∀ v : Int,
      (0 < v ∧ v < 60000 → loadCurtainTime v = v) ∧
      (¬(0 < v ∧ v < 60000) → loadCurtainTime v = DEFAULT_CURTAIN_TIME) ∧
      (∀ (s : MachineState) (now : Nat),
        s.setMode = false →
        3 ≤ (if now - s.lastShutdownTime < 2000 then s.shutdownCount + 1 else 1) →
          (handleShutdownKey s now).eepromTime = 0 ∧
          loadCurtainTime (handleShutdownKey s now).eepromTime = DEFAULT_CURTAIN_TIME) := by
  intro v
  refine ⟨fun h => ?_, fun h => ?_, fun s now hset hcount => ?_⟩
  · simp [loadCurtainTime, h]
  · simp [loadCurtainTime, h]
  · have : (handleShutdownKey s now).eepromTime = 0 := by
      simp only [handleShutdownKey, hset, Bool.false_eq_true, if_false]
      rw [if_pos hcount]
    exact ⟨this, by rw [this]; decide⟩

/-- C7 witness: the amended theorem applied at the persisted value 300
(in range, returned exactly), at 70000 (out of range, default), and at a
concrete third stop press (clears to 0, loads as default). -/
theorem c7_load_range_and_clear_default_witness :
    ((0 : Int) < 300 ∧ (300 : Int) < 60000) ∧
    loadCurtainTime 300 = 300 ∧
    (¬((0 : Int) < 70000 ∧ (70000 : Int) < 60000)) ∧
    loadCurtainTime 70000 = DEFAULT_CURTAIN_TIME ∧
    ((handleShutdownKey { initialState 4000 true with shutdownCount := 2, lastShutdownTime := 100 } 500).eepromTime = 0 ∧
      loadCurtainTime (handleShutdownKey { initialState 4000 true with shutdownCount := 2, lastShutdownTime := 100 } 500).eepromTime = DEFAULT_CURTAIN_TIME) :=
  ⟨by decide, (c7_load_range_and_clear_default 300).1 (by decide),
   by decide, (c7_load_range_and_clear_default 70000).2.1 (by decide),
   (c7_load_range_and_clear_default 0).2.2 _ 500 (by decide) (by decide)⟩

/-- C4: a second press of the calibration key (while `setMode` holds)
computes the elapsed time `now - timingStart`, de-asserts the motor
enable line, stores the elapsed time both in memory and — unclamped — in
the EEPROM duration field, marks the blind fully down while clearing the
fully-up hint, and returns to the idle state; range clamping happens
only in `loadCurtainTime` on the next load. -/
theorem c4_second_set_press_saves_unclamped :
    ∀ (s : MachineState) (now : Nat), s.setMode = true →
      (handleSetKey s now).enablePinHigh = true ∧
      (handleSetKey s now).motorRunning = false ∧
      (handleSetKey s now).timingInProgress = false ∧
      (handleSetKey s now).setMode = false ∧
      (handleSetKey s now).curtainTime = ((now - s.timingStart : Nat) : Int) ∧
      (handleSetKey s now).eepromTime = ((now - s.timingStart : Nat) : Int) ∧
      (handleSetKey s now).isFullyRolledDown = true ∧
      (handleSetKey s now).isFullyRolledUp = false ∧
      (∀ e : Int, ¬(0 < e ∧ e < 60000) → loadCurtainTime e = DEFAULT_CURTAIN_TIME) := by
  intro s now h
  have hload : ∀ e : Int, ¬(0 < e ∧ e < 60000) → loadCurtainTime e = DEFAULT_CURTAIN_TIME := by
    intro e he
    simp only [loadCurtainTime]
    rw [if_neg he]
  refine ⟨?_, ?_, ?_, ?_, ?_, ?_, ?_, ?_, hload⟩ <;> simp [handleSetKey, h]

/-- C4 witness: a calibration session started at 1000 ms and closed at
75000 ms persists the out-of-range elapsed time 74000 ms verbatim. -/
theorem c4_second_set_press_saves_unclamped_witness :
    ({ initialState 0 true with setMode := true, timingStart := 1000 } : MachineState).setMode = true ∧
    (handleSetKey { initialState 0 true with setMode := true, timingStart := 1000 } 75000).eepromTime = ((74000 : Nat) : Int) ∧
    (handleSetKey { initialState 0 true with setMode := true, timingStart := 1000 } 75000).isFullyRolledDown = true :=
  ⟨by decide,
   (c4_second_set_press_saves_unclamped _ 75000 (by decide)).2.2.2.2.2.1,
   (c4_second_set_press_saves_unclamped _ 75000 (by decide)).2.2.2.2.2.2.1⟩

/-- C9: a decoded command whose source address differs from `IR_ADDRESS`
(0xBF00) is discarded by the dispatcher before any handling: the state
is unchanged, no motor step is executed, and the command is not
accepted — this holds for every command code, including the
emergency-stop code. -/
theorem c9_foreign_address_discarded :
    ∀ (s : MachineState) (d : IRDecode) (now : Nat)
      (env : Nat → Option IRDecode) (fuel : Nat),
      d.address ≠ IR_ADDRESS →
        (loopStep s d now env fuel).state = s ∧
        (loopStep s d now env fuel).steps = 0 ∧
        (loopStep s d now env fuel).accepted = false := by
  intro s d now env fuel h
  rw [loopStep, if_pos h]
  exact ⟨rfl, rfl, rfl⟩

/-- C9 witness: an emergency-stop press from source address 0x1 is
discarded without touching the state. -/
theorem c9_foreign_address_discarded_witness :
    (⟨0x1, 0x5, 1⟩ : IRDecode).address ≠ IR_ADDRESS ∧
    (loopStep (initialState 0 true) ⟨0x1, 0x5, 1⟩ 500 (fun _ => none) 3).state = initialState 0 true ∧
    (loopStep (initialState 0 true) ⟨0x1, 0x5, 1⟩ 500 (fun _ => none) 3).steps = 0 :=
  ⟨by decide,
   (c9_foreign_address_discarded (initialState 0 true) _ 500 _ 3 (by decide)).1,
   (c9_foreign_address_discarded (initialState 0 true) _ 500 _ 3 (by decide)).2.1⟩

/-- C2 counterexample: in normal mode the sentinel code 0xFFFFFFFF
differs from the last accepted code (0), so the claimed acceptance
condition holds, yet the dispatcher drops the command: the validity
check `command != 0xFFFFFFFF` runs before the debounce window, so
acceptance is not equivalent to the window condition alone. -/
theorem c2_counterexample_sentinel_dropped :
    ¬ ((loopStep (initialState 0 true) ⟨0xBF00, 0xFFFFFFFF, 1⟩ 1000 (fun _ => none) 0).accepted = true ↔
       ((0xFFFFFFFF : Nat) ≠ (initialState 0 true).lastIRCommand ∨
        1000 - (initialState 0 true).lastIRTime > IR_DEBOUNCE_TIME)) := by
  decide

/-- C2 (amended): full characterization of command acceptance for a
decode that passes the address gate.  In normal mode a command is
accepted iff its code is not the sentinel `0xFFFFFFFF` and either the
motor-running emergency-stop bypass applies (valid stop while
`motorRunning`) or the 200 ms debounce window admits it; in calibration
mode only the set and stop codes with non-zero address and protocol are
considered, under a 1000 ms window.  On acceptance `lastIRCommand` and
`lastIRTime` are updated; a rejected command leaves the state unchanged. -/
theorem c2_debounce_acceptance_characterization :
    ∀ (s : MachineState) (d : IRDecode) (now : Nat)
      (env : Nat → Option IRDecode) (fuel : Nat),
      d.address = IR_ADDRESS →
      (((loopStep s d now env fuel).accepted = true ↔
        (if s.setMode then
          ((d.command = IR_KEY_SET ∨ d.command = IR_KEY_SHUTDOWN) ∧
            d.command ≠ 0xFFFFFFFF ∧ d.address ≠ 0 ∧ d.protocol ≠ 0 ∧
            (d.command ≠ s.lastIRCommand ∨ now - s.lastIRTime > SET_MODE_DEBOUNCE_TIME))
         else
          (d.command ≠ 0xFFFFFFFF ∧
            ((s.motorRunning = true ∧ d.command = IR_KEY_SHUTDOWN ∧
               d.address ≠ 0 ∧ d.protocol ≠ 0) ∨
             d.command ≠ s.lastIRCommand ∨ now - s.lastIRTime > IR_DEBOUNCE_TIME)))) ∧
       ((loopStep s d now env fuel).accepted = true →
         (loopStep s d now env fuel).state.lastIRCommand = d.command ∧
         (loopStep s d now env fuel).state.lastIRTime = now) ∧
       ((loopStep s d now env fuel).accepted = false →
         (loopStep s d now env fuel).state = s)) := by
  intro s d now env fuel haddr
  have hne : ¬ d.address ≠ IR_ADDRESS := by simpa using haddr
  by_cases hset : s.setMode
  · rw [loopStep, if_neg hne]
    simp only [hset, if_true]
    by_cases hfilter : (d.command = IR_KEY_SET ∨ d.command = IR_KEY_SHUTDOWN) ∧
        d.command ≠ 0xFFFFFFFF ∧ d.address ≠ 0 ∧ d.protocol ≠ 0
    · rw [if_pos hfilter]
      by_cases hwin : d.command ≠ s.lastIRCommand ∨ now - s.lastIRTime > SET_MODE_DEBOUNCE_TIME
      · rw [if_pos hwin]
        refine ⟨?_, fun _ => ⟨rfl, rfl⟩, fun hfalse => by simp at hfalse⟩
        simp [hfilter.1, hfilter.2.1, hfilter.2.2.1, hfilter.2.2.2, hwin]
      · rw [if_neg hwin]
        refine ⟨?_, fun htrue => by simp at htrue, fun _ => rfl⟩
        simp only [show (false = true) = False by simp, false_iff]
        intro hc
        exact hwin hc.2.2.2.2
    · rw [if_neg hfilter]
      refine ⟨?_, fun htrue => by simp at htrue, fun _ => rfl⟩
      simp only [show (false = true) = False by simp, false_iff]
      intro hc
      exact hfilter ⟨hc.1, hc.2.1, hc.2.2.1, hc.2.2.2.1⟩
  · rw [loopStep, if_neg hne]
    have hsetF : s.setMode = false := by simpa using hset
    simp only [hsetF, Bool.false_eq_true, if_false]
    by_cases hvalid : d.command ≠ 0xFFFFFFFF
    · rw [if_pos hvalid]
      by_cases hbypass : s.motorRunning ∧ d.command = IR_KEY_SHUTDOWN ∧
          d.address ≠ 0 ∧ d.protocol ≠ 0
      · rw [if_pos hbypass]
        refine ⟨?_, fun _ => ⟨rfl, rfl⟩, fun hfalse => by simp at hfalse⟩
        simp only [true_iff]
        exact ⟨hvalid, Or.inl ⟨by simpa using hbypass.1, hbypass.2⟩⟩
      · rw [if_neg hbypass]
        by_cases hwin : d.command ≠ s.lastIRCommand ∨ now - s.lastIRTime > IR_DEBOUNCE_TIME
        · rw [if_pos hwin]
          refine ⟨?_, fun _ => ⟨rfl, rfl⟩, fun hfalse => by simp at hfalse⟩
          simp only [true_iff]
          exact ⟨hvalid, Or.inr hwin⟩
        · rw [if_neg hwin]
          refine ⟨?_, fun htrue => by simp at htrue, fun _ => rfl⟩
          simp only [show (false = true) = False by simp, false_iff]
          intro hc
          rcases hc.2 with hb | hw
          · exact hbypass ⟨by simpa using hb.1, hb.2⟩
          · exact hwin hw
    · rw [if_neg hvalid]
      refine ⟨?_, fun htrue => by simp at htrue, fun _ => rfl⟩
      simp only [show (false = true) = False by simp, false_iff]
      intro hc
      exact hvalid hc.1

/-- C2 witness: the characterization applied to a concrete up-key press
passing the address gate from the freshly initialised state. -/
theorem c2_debounce_acceptance_characterization_witness :
    (⟨0xBF00, 0x1, 1⟩ : IRDecode).address = IR_ADDRESS ∧
    ((loopStep (initialState 0 true) ⟨0xBF00, 0x1, 1⟩ 1000 (fun _ => none) 0).accepted = true →
      (loopStep (initialState 0 true) ⟨0xBF00, 0x1, 1⟩ 1000 (fun _ => none) 0).state.lastIRCommand = 0x1 ∧
      (loopStep (initialState 0 true) ⟨0xBF00, 0x1, 1⟩ 1000 (fun _ => none) 0).state.lastIRTime = 1000) :=
  ⟨by decide,
   (c2_debounce_acceptance_characterization (initialState 0 true) ⟨0xBF00, 0x1, 1⟩ 1000
     (fun _ => none) 0 (by decide)).2.1⟩

/-- C5 counterexample: three emergency-stop presses at 3000 ms, 5000 ms
and 7000 ms — each pair exactly 2000 ms apart, hence "at most 2000 ms
apart" — never clear the persisted duration: the source requires the gap
to be strictly below 2000 ms (`currentTime - lastShutdownTime < 2000`),
so each press resets the counter to 1 and the EEPROM field keeps its
value. -/
theorem c5_counterexample_exact_2000_gap :
    5000 - 3000 ≤ 2000 ∧ 7000 - 5000 ≤ 2000 ∧
    (handleShutdownKey (handleShutdownKey (handleShutdownKey
        (initialState 4000 true) 3000) 5000) 7000).eepromTime = 4000 ∧
    (handleShutdownKey (handleShutdownKey (handleShutdownKey
        (initialState 4000 true) 3000) 5000) 7000).curtainTime = 4000 ∧
    (handleShutdownKey (handleShutdownKey (handleShutdownKey
        (initialState 4000 true) 3000) 5000) 7000).shutdownCount = 1 := by
  decide

/-- Helper: explicit form of `handleShutdownKey` outside calibration
mode. -/
theorem handleShutdownKey_eq_of_not_set (s : MachineState) (now : Nat)
    (h : s.setMode = false) :
    handleShutdownKey s now =
      if 3 ≤ (if now - s.lastShutdownTime < 2000 then s.shutdownCount + 1 else 1) then
        { s with shutdownCount := 0, lastShutdownTime := now,
                 eepromTime := 0, curtainTime := DEFAULT_CURTAIN_TIME }
      else
        { s with shutdownCount :=
                   (if now - s.lastShutdownTime < 2000 then s.shutdownCount + 1 else 1),
                 lastShutdownTime := now,
                 stopRequested := true, enablePinHigh := true,
                 motorRunning := false } := by
  simp only [handleShutdownKey, h, Bool.false_eq_true, if_false]

/-- C5 (amended): the stop-press counter of `handleShutdownKey` outside
calibration mode: a press strictly less than 2000 ms after the previous
one increments the counter (resetting it to 0 when it would reach 3),
any press at 2000 ms or later resets it to 1; the third press of a
strictly-within-window run clears the persisted duration to the sentinel
and restores the default in memory; three presses each strictly less
than 2000 ms apart trigger the clear, while three presses spaced more
than 2000 ms apart leave the persisted duration untouched. -/
theorem c5_triple_stop_counter :
    ∀ (s : MachineState) (now t1 t2 t3 : Nat), s.setMode = false →
      ((now - s.lastShutdownTime < 2000 →
          (handleShutdownKey s now).shutdownCount =
            (if 3 ≤ s.shutdownCount + 1 then 0 else s.shutdownCount + 1)) ∧
       (¬ now - s.lastShutdownTime < 2000 →
          (handleShutdownKey s now).shutdownCount = 1 ∧
          (handleShutdownKey s now).eepromTime = s.eepromTime) ∧
       (now - s.lastShutdownTime < 2000 → 3 ≤ s.shutdownCount + 1 →
          (handleShutdownKey s now).eepromTime = 0 ∧
          (handleShutdownKey s now).curtainTime = DEFAULT_CURTAIN_TIME ∧
          (handleShutdownKey s now).shutdownCount = 0) ∧
       (s.shutdownCount = 0 → t1 ≤ t2 → t2 ≤ t3 →
        t2 - t1 < 2000 → t3 - t2 < 2000 →
          (handleShutdownKey (handleShutdownKey (handleShutdownKey s t1) t2) t3).eepromTime = 0 ∧
          (handleShutdownKey (handleShutdownKey (handleShutdownKey s t1) t2) t3).curtainTime = DEFAULT_CURTAIN_TIME ∧
          (handleShutdownKey (handleShutdownKey (handleShutdownKey s t1) t2) t3).shutdownCount = 0) ∧
       (s.shutdownCount = 0 → 2000 < t2 - t1 → 2000 < t3 - t2 →
          (handleShutdownKey (handleShutdownKey (handleShutdownKey s t1) t2) t3).eepromTime = s.eepromTime ∧
          (handleShutdownKey (handleShutdownKey (handleShutdownKey s t1) t2) t3).shutdownCount = 1)) := by
  intro s now t1 t2 t3 hset
  refine ⟨fun hwin => ?_, fun hwin => ?_, fun hwin hc => ?_, ?_, ?_⟩
  · rw [handleShutdownKey_eq_of_not_set s now hset, if_pos hwin]
    split_ifs with h3 <;> rfl
  · rw [handleShutdownKey_eq_of_not_set s now hset, if_neg hwin]
    rw [if_neg (by simp [hwin])]
    exact ⟨by simp [hwin], rfl⟩
  · rw [handleShutdownKey_eq_of_not_set s now hset, if_pos hwin,
      if_pos (by simpa [hwin] using hc)]
    exact ⟨rfl, rfl, rfl⟩
  · intro h0 hm12 hm23 g12 g23
    have e1 : handleShutdownKey s t1 =
        { s with shutdownCount := 1, lastShutdownTime := t1,
                 stopRequested := true, enablePinHigh := true,
                 motorRunning := false } := by
      rw [handleShutdownKey_eq_of_not_set s t1 hset, h0]
      have hone : (if t1 - s.lastShutdownTime < 2000 then 0 + 1 else 1) = 1 := by
        split_ifs <;> rfl
      rw [hone, if_neg (by omega)]
    have e2 : handleShutdownKey (handleShutdownKey s t1) t2 =
        { s with shutdownCount := 2, lastShutdownTime := t2,
                 stopRequested := true, enablePinHigh := true,
                 motorRunning := false } := by
      rw [e1, handleShutdownKey_eq_of_not_set _ t2 (by exact hset)]
      simp only
      rw [if_pos g12, if_neg (by omega)]
    have e3 : handleShutdownKey (handleShutdownKey (handleShutdownKey s t1) t2) t3 =
        { s with shutdownCount := 0, lastShutdownTime := t3,
                 stopRequested := true, enablePinHigh := true,
                 motorRunning := false,
                 eepromTime := 0, curtainTime := DEFAULT_CURTAIN_TIME } := by
      rw [e2, handleShutdownKey_eq_of_not_set _ t3 (by exact hset)]
      simp only
      rw [if_pos g23, if_pos (by omega)]
    rw [e3]
    exact ⟨rfl, rfl, rfl⟩
  · intro h0 g12 g23
    have e1 : handleShutdownKey s t1 =
        { s with shutdownCount := 1, lastShutdownTime := t1,
                 stopRequested := true, enablePinHigh := true,
                 motorRunning := false } := by
      rw [handleShutdownKey_eq_of_not_set s t1 hset, h0]
      have hone : (if t1 - s.lastShutdownTime < 2000 then 0 + 1 else 1) = 1 := by
        split_ifs <;> rfl
      rw [hone, if_neg (by omega)]
    have e2 : handleShutdownKey (handleShutdownKey s t1) t2 =
        { s with shutdownCount := 1, lastShutdownTime := t2,
                 stopRequested := true, enablePinHigh := true,
                 motorRunning := false } := by
      rw [e1, handleShutdownKey_eq_of_not_set _ t2 (by exact hset)]
      rw [if_neg (show ¬(t2 - t1 < 2000) by omega), if_neg (by omega)]
    have e3 : handleShutdownKey (handleShutdownKey (handleShutdownKey s t1) t2) t3 =
        { s with shutdownCount := 1, lastShutdownTime := t3,
                 stopRequested := true, enablePinHigh := true,
                 motorRunning := false } := by
      rw [e2, handleShutdownKey_eq_of_not_set _ t3 (by exact hset)]
      rw [if_neg (show ¬(t3 - t2 < 2000) by omega), if_neg (by omega)]
    rw [e3]
    exact ⟨rfl, rfl⟩

/-- C5 witness: three presses at 100 ms gaps clear the persisted
duration; three presses at 3000 ms gaps keep it and leave the counter at
one. -/
theorem c5_triple_stop_counter_witness :
    ((initialState 4000 true).shutdownCount = 0 ∧
      (handleShutdownKey (handleShutdownKey (handleShutdownKey
          (initialState 4000 true) 2500) 2600) 2700).eepromTime = 0 ∧
      (handleShutdownKey (handleShutdownKey (handleShutdownKey
          (initialState 4000 true) 2500) 2600) 2700).curtainTime = DEFAULT_CURTAIN_TIME) ∧
    ((handleShutdownKey (handleShutdownKey (handleShutdownKey
          (initialState 4000 true) 2500) 5600) 8700).eepromTime = (initialState 4000 true).eepromTime ∧
      (handleShutdownKey (handleShutdownKey (handleShutdownKey
          (initialState 4000 true) 2500) 5600) 8700).shutdownCount = 1) :=
  ⟨⟨by decide,
    ((c5_triple_stop_counter (initialState 4000 true) 0 2500 2600 2700 (by decide)).2.2.2.1
      (by decide) (by decide) (by decide) (by decide) (by decide)).1,
    ((c5_triple_stop_counter (initialState 4000 true) 0 2500 2600 2700 (by decide)).2.2.2.1
      (by decide) (by decide) (by decide) (by decide) (by decide)).2.1⟩,
   (c5_triple_stop_counter (initialState 4000 true) 0 2500 5600 8700 (by decide)).2.2.2.2
     (by decide) (by decide) (by decide)⟩

/-- C6: shape of the trapezoidal profile of `smoothRotate`.  For a total
step count `N` (with `accelSteps = decelSteps = N / 4` as in the
source): every step of the first quarter follows the linear ramp from
`minSpeed`, every step between the quarters cruises at `maxSpeed`, every
step of the last quarter follows the mirrored linear ramp, the per-step
delay is `1000000 / currentSpeed` microseconds, the ramp starts at
`minSpeed` and reaches `maxSpeed` at the cruise boundary, the
deceleration is the exact mirror image of the acceleration
(`currentSpeed N (N - j) = currentSpeed N j`), and when `4 ∣ N` the
three phases have sizes `N/4`, `N/2` and `N/4`. -/
theorem c6_trapezoidal_profile :
    ∀ (N i j : Nat),
      (i < N / 4 →
        Sep7a.currentSpeed N i =
          Sep7a.minSpeed + (Sep7a.maxSpeed - Sep7a.minSpeed) * i / (N / 4)) ∧
      (N / 4 ≤ i → i < N - N / 4 → Sep7a.currentSpeed N i = Sep7a.maxSpeed) ∧
      (N - N / 4 ≤ i → i < N →
        Sep7a.currentSpeed N i =
          Sep7a.minSpeed + (Sep7a.maxSpeed - Sep7a.minSpeed) * (N - i) / (N / 4)) ∧
      (Sep7a.stepDelay N i = 1000000 / Sep7a.currentSpeed N i) ∧
      (0 < N / 4 → Sep7a.currentSpeed N 0 = Sep7a.minSpeed) ∧
      (0 < N → Sep7a.currentSpeed N (N / 4) = Sep7a.maxSpeed) ∧
      (1 ≤ j → j < N → Sep7a.currentSpeed N (N - j) = Sep7a.currentSpeed N j) ∧
      (4 ∣ N → N / 4 + N / 2 + N / 4 = N) := by
  intro N i j
  refine ⟨fun h => ?_, fun h1 h2 => ?_, fun h1 h2 => ?_, rfl, fun h => ?_,
    fun h => ?_, fun h1 h2 => ?_, fun h => by omega⟩
  · simp only [Sep7a.currentSpeed]
    rw [if_pos h]
  · simp only [Sep7a.currentSpeed]
    rw [if_neg (by omega), if_neg (by omega)]
  · simp only [Sep7a.currentSpeed]
    rw [if_neg (by omega), if_pos h1]
  · simp only [Sep7a.currentSpeed]
    rw [if_pos h]
    simp
  · simp only [Sep7a.currentSpeed]
    rw [if_neg (by omega), if_neg (by omega)]
  · simp only [Sep7a.currentSpeed]
    split_ifs
    all_goals try rfl
    all_goals try omega
    all_goals
      try (have hj : N - (N - j) = j := by omega
           rw [hj])
    all_goals
      first
        | (have hja : j = N / 4 := by omega
           rw [hja, Nat.mul_div_cancel _ (show 0 < N / 4 by omega)]
           decide)
        | (have hNj : N - j = N / 4 := by omega
           rw [hNj, Nat.mul_div_cancel _ (show 0 < N / 4 by omega)]
           decide)

/-- C6 witness: the profile theorem evaluated on the 45-degree move the
sketch actually issues (`steps = 45 * 3200 / 360 = 400`). -/
theorem c6_trapezoidal_profile_witness :
    (50 < 400 / 4 ∧
      Sep7a.currentSpeed 400 50 =
        Sep7a.minSpeed + (Sep7a.maxSpeed - Sep7a.minSpeed) * 50 / (400 / 4)) ∧
    Sep7a.currentSpeed 400 200 = Sep7a.maxSpeed ∧
    Sep7a.currentSpeed 400 399 =
      Sep7a.minSpeed + (Sep7a.maxSpeed - Sep7a.minSpeed) * (400 - 399) / (400 / 4) ∧
    Sep7a.currentSpeed 400 (400 - 1) = Sep7a.currentSpeed 400 1 ∧
    400 / 4 + 400 / 2 + 400 / 4 = 400 :=
  ⟨⟨by decide, (c6_trapezoidal_profile 400 50 1).1 (by decide)⟩,
   (c6_trapezoidal_profile 400 200 1).2.1 (by decide) (by decide),
   (c6_trapezoidal_profile 400 399 1).2.2.1 (by decide) (by decide),
   (c6_trapezoidal_profile 400 0 1).2.2.2.2.2.2.1 (by decide) (by decide),
   (c6_trapezoidal_profile 400 0 1).2.2.2.2.2.2.2 (by decide)⟩

/-- Helper: a pulse loop entered with the stop flag already raised
executes no step. -/
theorem rotateLoop_of_stop_requested (env : Nat → Option IRDecode)
    (fuel sc : Nat) : rotateLoop env fuel sc true = (sc, true) := by
  cases fuel <;> simp [rotateLoop]

/-- Helper: if no poll ever observes a valid emergency stop, the pulse
loop of `rotateForTime` consumes its whole time budget. -/
theorem rotateLoop_of_no_stop (env : Nat → Option IRDecode)
    (h : ∀ n, pollStop env n = false) :
    ∀ fuel sc : Nat, rotateLoop env fuel sc false = (sc + fuel, false) := by
  intro fuel
  induction fuel with
  | zero => intro sc; rfl
  | succ f ih =>
    intro sc
    have hstep : sc + 1 + f = sc + (f + 1) := by omega
    simp only [rotateLoop, Bool.false_eq_true, if_false]
    rcases henv : env (sc + 1) with _ | d
    · simp only [henv]
      split_ifs <;> rw [ih, hstep]
    · have hv : isValidStop d = false := by
        have hp := h (sc + 1)
        rwa [pollStop, henv] at hp
      simp only [henv, hv, Bool.false_eq_true, if_false]
      split_ifs <;> rw [ih, hstep]

/-- Helper: the pulse loop of `rotateForTime` stops exactly at the first
poll point (a positive multiple of 100 within the time budget) whose
decode is a valid emergency stop. -/
theorem rotateLoop_first_stop (env : Nat → Option IRDecode) (m : Nat)
    (hm : m % 100 = 0) (hstop : pollStop env m = true)
    (hfirst : ∀ k, k < m → 0 < k → k % 100 = 0 → pollStop env k = false) :
    ∀ fuel sc : Nat, sc < m → m ≤ sc + fuel →
      rotateLoop env fuel sc false = (m, true) := by
  intro fuel
  induction fuel with
  | zero => intro sc h1 h2; omega
  | succ f ih =>
    intro sc h1 h2
    simp only [rotateLoop, Bool.false_eq_true, if_false]
    by_cases heq : sc + 1 = m
    · subst heq
      have hmod : ((sc + 1) % 100 == 0) = true := by simpa using hm
      rcases henv : env (sc + 1) with _ | d
      · simp [pollStop, henv] at hstop
      · have hv : isValidStop d = true := by
          simpa [pollStop, henv] using hstop
        simp [hmod, henv, hv]
    · have hlt : sc + 1 < m := by omega
      by_cases hmod : ((sc + 1) % 100 == 0) = true
      · rcases henv : env (sc + 1) with _ | d
        · simp only [hmod, if_true, henv]
          exact ih (sc + 1) hlt (by omega)
        · have hv : isValidStop d = false := by
            have hp := hfirst (sc + 1) hlt (by omega) (by simpa using hmod)
            rwa [pollStop, henv] at hp
          simp only [hmod, if_true, henv, hv, Bool.false_eq_true, if_false]
          exact ih (sc + 1) hlt (by omega)
      · simp only [hmod, if_false]
        exact ih (sc + 1) hlt (by omega)

/-- Helper: if no poll ever observes a valid stop for the `sketch_sep7a`
variant, the `smoothRotate` pulse loop runs to its step target. -/
theorem smoothLoop_of_no_stop (env : Nat → Option IRDecode) (steps : Nat)
    (h : ∀ n, Sep7a.pollStop env n = false) :
    ∀ fuel i : Nat, i ≤ steps → steps ≤ i + fuel →
      Sep7a.smoothLoop env steps fuel i = (steps, false) := by
  intro fuel
  induction fuel with
  | zero =>
    intro i h1 h2
    have : i = steps := by omega
    subst this
    rfl
  | succ f ih =>
    intro i h1 h2
    by_cases hi : i < steps
    · simp only [Sep7a.smoothLoop, hi, if_true]
      rcases henv : env i with _ | d
      · simp only [henv]
        split_ifs <;> exact ih (i + 1) (by omega) (by omega)
      · have hv : Sep7a.isValidStop d = false := by
          have hp := h i
          rwa [Sep7a.pollStop, henv] at hp
        simp only [henv, hv, Bool.false_eq_true, if_false]
        split_ifs <;> exact ih (i + 1) (by omega) (by omega)
    · have : i = steps := by omega
      subst this
      simp [Sep7a.smoothLoop, hi]

/-- Helper: the `smoothRotate` pulse loop breaks right after the pulse of
the first poll index (multiple of 100 below the step target) whose
decode is a valid stop for this variant. -/
theorem smoothLoop_first_stop (env : Nat → Option IRDecode)
    (steps m : Nat) (hm : m % 100 = 0) (hstop : Sep7a.pollStop env m = true)
    (hfirst : ∀ k, k < m → k % 100 = 0 → Sep7a.pollStop env k = false) :
    ∀ fuel i : Nat, i ≤ m → m < steps → steps ≤ i + fuel →
      Sep7a.smoothLoop env steps fuel i = (m + 1, true) := by
  intro fuel
  induction fuel with
  | zero => intro i h1 h2 h3; omega
  | succ f ih =>
    intro i h1 h2 h3
    have hi : i < steps := by omega
    simp only [Sep7a.smoothLoop, hi, if_true]
    by_cases heq : i = m
    · subst heq
      have hmod : (i % 100 == 0) = true := by simpa using hm
      rcases henv : env i with _ | d
      · simp [Sep7a.pollStop, henv] at hstop
      · have hv : Sep7a.isValidStop d = true := by
          simpa [Sep7a.pollStop, henv] using hstop
        simp [hmod, henv, hv]
    · have hlt : i < m := by omega
      by_cases hmod : (i % 100 == 0) = true
      · rcases henv : env i with _ | d
        · simp only [hmod, if_true, henv]
          exact ih (i + 1) (by omega) h2 (by omega)
        · have hv : Sep7a.isValidStop d = false := by
            have hp := hfirst i hlt (by simpa using hmod)
            rwa [Sep7a.pollStop, henv] at hp
          simp only [hmod, if_true, henv, hv, Bool.false_eq_true, if_false]
          exact ih (i + 1) (by omega) h2 (by omega)
      · simp only [hmod, if_false]
        exact ih (i + 1) (by omega) h2 (by omega)

/-- C3: cancellation behaviour of the in-flight pulse loops, which read
no debounce state at all.  For the timed loop of `rotateForTime` (stop
code 0x5) and the trapezoidal loop of `smoothRotate` (stop code 0x0):
if every decode has a zero source address or zero protocol (noise), the
loop never stops early and consumes its whole budget; if the first
valid emergency stop appears at poll point `m` (polls run every 100
steps), the loop terminates exactly there — `m` steps into the timed
move, `m + 1` steps into the trapezoidal move — i.e. within one poll
interval of the stop becoming observable. -/
theorem c3_inflight_stop_within_poll_interval :
    (∀ (env : Nat → Option IRDecode) (fuel : Nat),
      (∀ n d, env n = some d → d.address = 0 ∨ d.protocol = 0) →
      rotateLoop env fuel 0 false = (fuel, false)) ∧
    (∀ (env : Nat → Option IRDecode) (fuel m : Nat),
      0 < m → m ≤ fuel → m % 100 = 0 → pollStop env m = true →
      (∀ k, k < m → 0 < k → k % 100 = 0 → pollStop env k = false) →
      rotateLoop env fuel 0 false = (m, true)) ∧
    (∀ (env : Nat → Option IRDecode) (steps : Nat),
      (∀ n d, env n = some d → d.address = 0 ∨ d.protocol = 0) →
      Sep7a.smoothRotate env steps = (steps, false)) ∧
    (∀ (env : Nat → Option IRDecode) (steps m : Nat),
      m < steps → m % 100 = 0 → Sep7a.pollStop env m = true →
      (∀ k, k < m → k % 100 = 0 → Sep7a.pollStop env k = false) →
      Sep7a.smoothRotate env steps = (m + 1, true)) := by
  refine ⟨fun env fuel hnoise => ?_, fun env fuel m h1 h2 h3 h4 h5 => ?_,
    fun env steps hnoise => ?_, fun env steps m h1 h2 h3 h4 => ?_⟩
  · have h : ∀ n, pollStop env n = false := by
      intro n
      rw [pollStop]
      rcases henv : env n with _ | d
      · rfl
      · rcases hnoise n d henv with h0 | h0 <;> simp [isValidStop, h0]
    simpa using rotateLoop_of_no_stop env h fuel 0
  · exact rotateLoop_first_stop env m h3 h4 h5 fuel 0 h1 (by omega)
  · have h : ∀ n, Sep7a.pollStop env n = false := by
      intro n
      rw [Sep7a.pollStop]
      rcases henv : env n with _ | d
      · rfl
      · rcases hnoise n d henv with h0 | h0 <;> simp [Sep7a.isValidStop, h0]
    exact smoothLoop_of_no_stop env steps h steps 0 (by omega) (by omega)
  · exact smoothLoop_first_stop env steps m h2 h3 h4 steps 0 (by omega) h1 (by omega)

/-- C3 witness: a stream of zero-address stop presses never interrupts a
250-step timed move; a single valid stop decoded at poll point 100 ends
a 150-step budget at exactly 100 steps; the trapezoidal analogues with
the stop code 0x0 of the variant behave the same at poll point 200 of a
450-step move. -/
theorem c3_inflight_stop_within_poll_interval_witness :
    rotateLoop (fun _ => some ⟨0, 5, 1⟩) 250 0 false = (250, false) ∧
    rotateLoop (fun n => if n = 100 then some ⟨1, 5, 1⟩ else none) 150 0 false = (100, true) ∧
    Sep7a.smoothRotate (fun _ => some ⟨0, 0, 3⟩) 450 = (450, false) ∧
    Sep7a.smoothRotate (fun n => if n = 200 then some ⟨2, 0, 3⟩ else none) 450 = (201, true) :=
  ⟨c3_inflight_stop_within_poll_interval.1 (fun _ => some ⟨0, 5, 1⟩) 250
      (fun n d h => by
        injection h with h
        subst h
        exact Or.inl rfl),
   c3_inflight_stop_within_poll_interval.2.1 (fun n => if n = 100 then some ⟨1, 5, 1⟩ else none)
      150 100 (by decide) (by decide) (by decide) (by decide)
      (by decide),
   c3_inflight_stop_within_poll_interval.2.2.1 (fun _ => some ⟨0, 0, 3⟩) 450
      (fun n d h => by
        injection h with h
        subst h
        exact Or.inl rfl),
   c3_inflight_stop_within_poll_interval.2.2.2 (fun n => if n = 200 then some ⟨2, 0, 3⟩ else none)
      450 200 (by decide) (by decide) (by decide)
      (by decide)⟩

/-- Helper: every dispatch of `handleIRCommand` preserves the property
that at most one of the two position hints is set. -/
theorem handleIRCommand_flags_ok (s : MachineState) (cmd now : Nat)
    (env : Nat → Option IRDecode) (fuel : Nat)
    (h : (s.isFullyRolledUp && s.isFullyRolledDown) = false) :
    ((handleIRCommand s cmd now env fuel).1.isFullyRolledUp &&
      (handleIRCommand s cmd now env fuel).1.isFullyRolledDown) = false := by
  rw [handleIRCommand]
  split_ifs with h1 h2 h3 h4 h5 h6 h7 h8 h9
  · exact h
  · simp only [rollUpCurtain, rotateForTime]
    split_ifs <;> rfl
  · exact h
  · simp only [layDownCurtain, rotateForTime]
    split_ifs <;> rfl
  · rfl
  · rfl
  · simp only [handleSetKey]
    split_ifs
    · exact h
    · rfl
  · simp only [handleShutdownKey]
    split_ifs <;> exact h
  · exact h
  · exact h

/-- Helper: one pass of the decode-processing block preserves the
at-most-one-hint property. -/
theorem loopStep_flags_ok (s : MachineState) (d : IRDecode) (now : Nat)
    (env : Nat → Option IRDecode) (fuel : Nat)
    (h : (s.isFullyRolledUp && s.isFullyRolledDown) = false) :
    ((loopStep s d now env fuel).state.isFullyRolledUp &&
      (loopStep s d now env fuel).state.isFullyRolledDown) = false := by
  rw [loopStep]
  split_ifs <;>
    first
      | exact h
      | exact handleIRCommand_flags_ok s d.command now env fuel h

/-- C8: starting from the setup state (both hints cleared), every trace
of decoded commands leaves at most one of the two position hints set:
roll-up completion sets the up hint while clearing the down hint,
lay-down and the calibration exit do the opposite, nudges clear both,
and no operation sets both. -/
theorem c8_at_most_one_position_hint :
    ∀ (eepromTime : Int) (eepromDirection : Bool) (inputs : List LoopInput),
      ((runTrace (initialState eepromTime eepromDirection) inputs).isFullyRolledUp &&
        (runTrace (initialState eepromTime eepromDirection) inputs).isFullyRolledDown) = false := by
  intro e dir inputs
  have hgen : ∀ (l : List LoopInput) (s : MachineState),
      (s.isFullyRolledUp && s.isFullyRolledDown) = false →
      ((runTrace s l).isFullyRolledUp && (runTrace s l).isFullyRolledDown) = false := by
    intro l
    induction l with
    | nil => intro s hs; exact hs
    | cons i rest ih =>
      intro s hs
      have hstep : runTrace s (i :: rest) =
          runTrace (loopStep s i.d i.now i.env i.fuel).state rest := rfl
      rw [hstep]
      exact ih _ (loopStep_flags_ok s i.d i.now i.env i.fuel hs)
  exact hgen inputs (initialState e dir) rfl

/-- Helper: a nudge command dispatched while the stop flag is raised
executes zero steps and leaves the flag raised (the nudge handlers call
`rotateForTime` without clearing `stopRequested`, and the pulse loop
checks it before the first pulse). -/
theorem handleIRCommand_nudge_stopped (s : MachineState) (cmd now : Nat)
    (env : Nat → Option IRDecode) (fuel : Nat)
    (hs : s.stopRequested = true)
    (hcmd : cmd = IR_KEY_LEFT ∨ cmd = IR_KEY_RIGHT) :
    (handleIRCommand s cmd now env fuel).2 = 0 ∧
    (handleIRCommand s cmd now env fuel).1.stopRequested = true := by
  rcases hcmd with h | h <;> subst h <;>
    simp [handleIRCommand, rotateForTime, IR_KEY_UP, IR_KEY_DOWN,
      IR_KEY_LEFT, IR_KEY_RIGHT, hs, rotateLoop_of_stop_requested]

/-- C10: (a) an emergency-stop press handled while idle whose repeat
count stays below three raises `stopRequested`; (b) from any state with
`stopRequested` raised, every sequence of nudge (left/right) commands
executes zero motor steps in total and leaves the flag raised; (c) the
full roll-up and roll-down handlers reset the flag on entry, so their
pulse loop runs from a cleared flag (`rotateLoop env fuel 0 false`). -/
theorem c10_stop_flag_starves_nudges :
    (∀ (s : MachineState) (now : Nat),
      s.setMode = false →
      (if now - s.lastShutdownTime < 2000 then s.shutdownCount + 1 else 1) < 3 →
      (handleShutdownKey s now).stopRequested = true) ∧
    (∀ (s : MachineState) (l : List MoveInput),
      s.stopRequested = true →
      (∀ i ∈ l, i.command = IR_KEY_LEFT ∨ i.command = IR_KEY_RIGHT) →
      (runMoves s l).2 = 0 ∧ (runMoves s l).1.stopRequested = true) ∧
    (∀ (s : MachineState) (now : Nat) (env : Nat → Option IRDecode) (fuel : Nat),
      s.isFullyRolledUp = false →
      (handleIRCommand s IR_KEY_UP now env fuel).2 = (rotateLoop env fuel 0 false).1) ∧
    (∀ (s : MachineState) (now : Nat) (env : Nat → Option IRDecode) (fuel : Nat),
      s.isFullyRolledDown = false →
      (handleIRCommand s IR_KEY_DOWN now env fuel).2 = (rotateLoop env fuel 0 false).1) := by
  refine ⟨fun s now h1 h2 => ?_, fun s l => ?_, fun s now env fuel h => ?_,
    fun s now env fuel h => ?_⟩
  · rw [handleShutdownKey_eq_of_not_set s now h1, if_neg (by omega)]
  · induction l generalizing s with
    | nil => intro hs _; exact ⟨rfl, hs⟩
    | cons i rest ih =>
      intro hs hl
      have hi := hl i (List.mem_cons_self i rest)
      have h1 := handleIRCommand_nudge_stopped s i.command i.now i.env i.fuel hs hi
      have hrest := ih (handleIRCommand s i.command i.now i.env i.fuel).1 h1.2
        (fun j hj => hl j (List.mem_cons_of_mem i hj))
      constructor
      · show (handleIRCommand s i.command i.now i.env i.fuel).2 +
          (runMoves (handleIRCommand s i.command i.now i.env i.fuel).1 rest).2 = 0
        rw [h1.1, hrest.1]
      · exact hrest.2
  · simp [handleIRCommand, rollUpCurtain, rotateForTime, IR_KEY_UP, h]
  · simp [handleIRCommand, layDownCurtain, rotateForTime, IR_KEY_UP,
      IR_KEY_DOWN, h]

/-- C10 witness: after a first stop press at 5000 ms the flag is raised;
a left nudge followed by a right nudge from a stopped state execute zero
steps in total and keep the flag; a roll-up from a state with the up
hint cleared runs its loop from a cleared flag. -/
theorem c10_stop_flag_starves_nudges_witness :
    ((initialState 0 true).setMode = false ∧
      (handleShutdownKey (initialState 0 true) 5000).stopRequested = true) ∧
    ((runMoves { initialState 0 true with stopRequested := true }
        [⟨IR_KEY_LEFT, 100, fun _ => none, 7⟩, ⟨IR_KEY_RIGHT, 200, fun _ => none, 9⟩]).2 = 0 ∧
      (runMoves { initialState 0 true with stopRequested := true }
        [⟨IR_KEY_LEFT, 100, fun _ => none, 7⟩, ⟨IR_KEY_RIGHT, 200, fun _ => none, 9⟩]).1.stopRequested = true) ∧
    (handleIRCommand { initialState 0 true with stopRequested := true }
        IR_KEY_UP 300 (fun _ => none) 11).2 = (rotateLoop (fun _ => none) 11 0 false).1 :=
  ⟨⟨by decide, c10_stop_flag_starves_nudges.1 (initialState 0 true) 5000 (by decide) (by decide)⟩,
   c10_stop_flag_starves_nudges.2.1 { initialState 0 true with stopRequested := true }
     [⟨IR_KEY_LEFT, 100, fun _ => none, 7⟩, ⟨IR_KEY_RIGHT, 200, fun _ => none, 9⟩]
     (by decide)
     (by
       intro i hi
       rcases List.mem_cons.mp hi with rfl | hi2
       · exact Or.inl rfl
       · rcases List.mem_cons.mp hi2 with rfl | h3
         · exact Or.inr rfl
         · cases h3),
   c10_stop_flag_starves_nudges.2.2.1 { initialState 0 true with stopRequested := true }
     300 (fun _ => none) 11 (by decide)⟩
